import Mathlib

/-!
Verification development for the Mythos-Canvas front-end.

The definitions below are a shallow embedding of the TypeScript source:

* `src/components/ChatAssistant.tsx` — the compact rich-text renderer
  (`ChatRichText` / `parseInline`), the story wizard state machine
  (`StoryWizard`: `handleNext`, `handleBack`, `handleChange`,
  `appendOption`, the next-button disabled guard), and the chat session
  persistence helpers (`createNewSession`, `handleSend`).
* `src/components/ImageStudio.tsx` — `saveToGallery` and `handleAction`.
* the infographic studio file — `generateAllImages` / `generateSingleItem`.

JavaScript strings are modeled as Lean `String` / `List Char`; the
dynamic `answers` object of the wizard is modeled as a total function
`QKey → Option String` (`none` = key absent), so JavaScript truthiness of
an answer is `truthy` below. Remote calls are opaque in the source
(`../services/geminiService` is outside the repository), so every call
site takes the settled outcome of the remote call as an explicit
`Except String _` argument.
-/

/-- Mirrors the semantics of the JavaScript list prefix test used to model
`String.startsWith`: `isPrefixCL p s` is true when `p` is a prefix of `s`. -/
def isPrefixCL : List Char → List Char → Bool
  | [], _ => true
  | _ :: _, [] => false
  | a :: ps, b :: ss => a == b && isPrefixCL ps ss

/-- Mirrors `String.endsWith`: `isSuffixCL p s` is true when `p` is a suffix of `s`. -/
def isSuffixCL (p s : List Char) : Bool :=
  isPrefixCL p.reverse s.reverse

/-- Mirrors `String.includes` on character lists: `containsSub sub s` is true
when `sub` occurs contiguously inside `s`. -/
def containsSub : List Char → List Char → Bool
  | sub, [] => sub.isEmpty
  | sub, c :: rest => isPrefixCL sub (c :: rest) || containsSub sub rest

/-- JavaScript `s.includes(sub)` on the model strings. -/
def jsIncludes (s sub : String) : Bool :=
  containsSub sub.data s.data

/-- JavaScript truthiness of an answer slot: `undefined` and the empty
string are falsy, every other string is truthy. -/
def truthy : Option String → Bool
  | none => false
  | some s => !s.isEmpty

/-! ## Story wizard (`StoryWizard` in `ChatAssistant.tsx`) -/

/-- Keys of the `StoryConfig` answers object: the eleven question ids of
`QUESTIONS` plus the reserved existing-content intake key. -/
inductive QKey
  | corePremise
  | genre
  | tone
  | narrativeStyle
  | targetAudience
  | lengthStructure
  | chapterCount
  | keyElements
  | complexity
  | endingType
  | constraints
  | existingContent
deriving DecidableEq, Repr

/-- One fast-select option chip (`QuestionOption`): a display label and the
value appended to the answer. -/
structure QuestionOption where
  label : String
  value : String
deriving DecidableEq, Repr

/-- One entry of `QUESTIONS`. Display-only fields (`label`, `desc`,
`placeholder`) are omitted; the id and the option chips are kept. -/
structure QuestionConfig where
  id : QKey
  options : List QuestionOption
deriving DecidableEq, Repr

/-- The `QUESTIONS` array of `ChatAssistant.tsx` (ids and option values). -/
def QUESTIONS : List QuestionConfig := [
  { id := QKey.corePremise, options := [] },
  { id := QKey.genre, options := [
      { label := ("Sci-Fi"), value := ("Science Fiction") },
      { label := ("Fantasy"), value := ("High Fantasy") },
      { label := ("Mystery"), value := ("Noir Mystery") },
      { label := ("Horror"), value := ("Psychological Horror") },
      { label := ("Romance"), value := ("Historical Romance") }] },
  { id := QKey.tone, options := [
      { label := ("Dark"), value := ("Dark and gritty") },
      { label := ("Whimsical"), value := ("Whimsical and lighthearted") },
      { label := ("Suspenseful"), value := ("High-stakes suspense") },
      { label := ("Melancholic"), value := ("Melancholic and introspective") }] },
  { id := QKey.narrativeStyle, options := [
      { label := ("1st Person"), value := ("First-person perspective") },
      { label := ("3rd Limited"), value := ("Third-person limited") },
      { label := ("Omniscient"), value := ("Third-person omniscient") },
      { label := ("Epistolary"), value := ("Journal entries and letters") }] },
  { id := QKey.targetAudience, options := [
      { label := ("YA"), value := ("Young Adult (14-18)") },
      { label := ("Adult"), value := ("Adult Fiction") },
      { label := ("Children"), value := ("Middle Grade (8-12)") }] },
  { id := QKey.lengthStructure, options := [
      { label := ("Short Story"), value := ("3,000 words") },
      { label := ("Novelette"), value := ("10,000 words") },
      { label := ("Novella"), value := ("25,000 words") }] },
  { id := QKey.chapterCount, options := [
      { label := ("Single Shot (1)"), value := ("1") },
      { label := ("Short (3)"), value := ("3") },
      { label := ("Standard (5)"), value := ("5") },
      { label := ("Long (10)"), value := ("10") },
      { label := ("Epic (20)"), value := ("20") }] },
  { id := QKey.keyElements, options := [] },
  { id := QKey.complexity, options := [
      { label := ("Low"), value := ("Straightforward plot, focus on action") },
      { label := ("Medium"), value := ("One subplot, moderate descriptive depth") },
      { label := ("High"), value := ("Complex interwoven plots, hyper-realistic detail") }] },
  { id := QKey.endingType, options := [
      { label := ("Twist"), value := ("Shocking twist ending") },
      { label := ("Happy"), value := ("Triumphant resolution") },
      { label := ("Tragic"), value := ("Tragic downfall") },
      { label := ("Open"), value := ("Ambiguous open ending") }] },
  { id := QKey.constraints, options := [] }]

/-- Top-level phase of the wizard component (`mode` state). -/
inductive Mode
  | SELECT
  | WIZARD
deriving DecidableEq, Repr

/-- State of the `StoryWizard` component: `mode`, `step`, the `answers`
object (total function, `none` = key absent) and the `quickFeedback`
side-channel text. -/
structure WizardState where
  mode : Mode
  step : Int
  answers : QKey → Option String
  quickFeedback : Option String

/-- Functional update of the answers object (`{ ...prev, [key]: val }`). -/
def updateAns (f : QKey → Option String) (k : QKey) (v : String) : QKey → Option String :=
  fun k2 => if k2 = k then some v else f k2

/-- Answers object with no keys set. -/
def emptyAnswers : QKey → Option String := fun _ => none

/-- Component state before any interaction (`useState` initializers). -/
def initialState : WizardState :=
  { mode := Mode.SELECT, step := 0, answers := emptyAnswers, quickFeedback := none }

/-- The `startNew` handler: clear answers, enter the wizard at question 0. -/
def startNew (s : WizardState) : WizardState :=
  { s with answers := emptyAnswers, mode := Mode.WIZARD, step := 0 }

/-- The `startContinue` handler: answers reset to an object holding only
`existingContent` initialized to the empty string, step set to `-1`. -/
def startContinue (s : WizardState) : WizardState :=
  { s with answers := updateAns emptyAnswers QKey.existingContent (""),
           mode := Mode.WIZARD, step := -1 }

/-- The `handleNext` handler: below `QUESTIONS.length - 1` advance one step
and clear the quick feedback, otherwise jump to the review step
`QUESTIONS.length`. -/
def handleNext (s : WizardState) : WizardState :=
  if s.step < (QUESTIONS.length : Int) - 1 then
    { s with step := s.step + 1, quickFeedback := none }
  else
    { s with step := (QUESTIONS.length : Int) }

/-- The `handleBack` handler, with its four sequential early-return guards.
`!answers.existingContent` is JavaScript truthiness, hence `truthy`. -/
def handleBack (s : WizardState) : WizardState :=
  if s.step = 0 ∧ truthy (s.answers QKey.existingContent) = false then
    { s with mode := Mode.SELECT }
  else if s.step = -1 then
    { s with mode := Mode.SELECT }
  else if s.step = 0 ∧ truthy (s.answers QKey.existingContent) = true then
    { s with step := -1 }
  else if 0 < s.step then
    { s with step := s.step - 1 }
  else s

/-- Key written or read for the step currently rendered: the synthetic
existing-content config at step `-1`, `QUESTIONS[step].id` for question
steps, nothing at the review step (no question is rendered there). -/
def qidAt (step : Int) : Option QKey :=
  if step = -1 then some QKey.existingContent
  else if step < 0 then none
  else (QUESTIONS.get? step.toNat).map (fun q => q.id)

/-- The `handleChange` handler: writes the current step key. At steps
where no question is rendered the JavaScript code would write the junk key
`"undefined"`, which no reader ever consults, so the modeled answers are
unchanged there. -/
def handleChange (val : String) (s : WizardState) : WizardState :=
  match qidAt s.step with
  | some k => { s with answers := updateAns s.answers k val }
  | none => s

/-- The `appendOption` handler: read the current answer (empty string when
absent), do nothing when the option value already occurs in it, otherwise
append with a comma-plus-space join (or use the value alone when the
current answer is empty). Option chips are only rendered on question steps
(`currentQ.options`), so steps without a `QUESTIONS` entry are identity. -/
def appendOption (optValue : String) (s : WizardState) : WizardState :=
  if s.step < 0 then s
  else
    match QUESTIONS.get? s.step.toNat with
    | none => s
    | some q =>
      let currentVal := (s.answers q.id).getD ("")
      if jsIncludes currentVal optValue then s
      else handleChange (if currentVal = "" then optValue
                         else currentVal ++ ", " ++ optValue) s

/-- The next-button guard `disabled={!answers[currentQ.id]}`: the button is
enabled only when the answer of the currently rendered step is truthy. -/
def nextEnabled (s : WizardState) : Bool :=
  match qidAt s.step with
  | some k => truthy (s.answers k)
  | none => false

/-- The user-visible next action: `handleNext` runs only when the button
is enabled, otherwise the click is impossible and the state is unchanged. -/
def doNext (s : WizardState) : WizardState :=
  if nextEnabled s then handleNext s else s

/-- User actions available inside one wizard session. -/
inductive WAction
  | wnext
  | wback
  | wchange (v : String)
  | wappend (v : String)

/-- Apply one wizard action. -/
def applyWA (s : WizardState) : WAction → WizardState
  | WAction.wnext => doNext s
  | WAction.wback => handleBack s
  | WAction.wchange v => handleChange v s
  | WAction.wappend v => appendOption v s

/-- Run a sequence of wizard actions. -/
def runW (s : WizardState) (acts : List WAction) : WizardState :=
  acts.foldl applyWA s

/-- Navigation-only actions (next and back). -/
inductive NavAction
  | nxt
  | bck

/-- Apply one navigation action. -/
def applyNav (s : WizardState) : NavAction → WizardState
  | NavAction.nxt => doNext s
  | NavAction.bck => handleBack s

/-- Run a sequence of navigation actions. -/
def runNav (s : WizardState) (acts : List NavAction) : WizardState :=
  acts.foldl applyNav s

/-- Wizard state at question 0 whose existing-content answer is present
but the empty string (the state produced by `startContinue` followed by
advancing to question 0). -/
def presentEmptyAt0 : WizardState :=
  { mode := Mode.WIZARD, step := 0,
    answers := updateAns emptyAnswers QKey.existingContent (""),
    quickFeedback := none }

/-- Wizard state at question 0 with a non-empty existing-content answer. -/
def nonEmptyAt0 : WizardState :=
  { mode := Mode.WIZARD, step := 0,
    answers := updateAns emptyAnswers QKey.existingContent ("Once upon a time"),
    quickFeedback := none }

/-- Wizard state at question 5 (used to exercise back from a middle step). -/
def midStep5 : WizardState :=
  { mode := Mode.WIZARD, step := 5, answers := emptyAnswers, quickFeedback := none }

/-- Wizard state at the last question, step 10, with that answer filled. -/
def lastQuestionState : WizardState :=
  { mode := Mode.WIZARD, step := 10,
    answers := updateAns emptyAnswers QKey.constraints ("none"),
    quickFeedback := none }

/-- Wizard state at the review step 11. -/
def reviewState : WizardState :=
  { mode := Mode.WIZARD, step := 11, answers := emptyAnswers, quickFeedback := none }

/-! ## Compact rich-text renderer (`ChatRichText` in `ChatAssistant.tsx`)

The renderer splits the text into blocks on the regular expression
`/\n\s*\n/`, classifies each trimmed block, and tokenizes inline text with
`str.split(/(\*\*.*?\*\*|\*.*?\*|`...`)/g)` followed by a prefix/suffix
classification of every part. The splitter below reproduces the
leftmost-match, lazy-quantifier semantics of those expressions; `.` never
matches a newline, and `\s` is modeled by the ASCII whitespace characters. -/

/-- Inline span produced by `parseInline`: bold, italic, inline code, or a
plain text fragment (the parts of the split that match no delimiter test,
including empty fragments at the boundaries of the split). -/
inductive Inline
  | bold (s : String)
  | italic (s : String)
  | code (s : String)
  | plain (s : String)
deriving DecidableEq, Repr

/-- Display block produced by `ChatRichText` for one text block. -/
inductive Block
  | h3 (t : String)
  | h2 (t : String)
  | codeblock (t : String)
  | list (items : List (List Inline))
  | quote (spans : List Inline)
  | para (spans : List Inline)
deriving DecidableEq, Repr

/-- Characters the dot of the regular expressions never matches. -/
def isLineBrk (c : Char) : Bool :=
  c == '\n' || c == '\r'

/-- Lazy search for the closing `**` of `\*\*.*?\*\*`: returns the content
before the first `**` (which may not contain a line break) and the rest
after it. -/
def findCloseD : List Char → Option (List Char × List Char)
  | '*' :: '*' :: rest => some ([], rest)
  | c :: rest =>
      if isLineBrk c then none
      else
        match findCloseD rest with
        | some (ct, r) => some (c :: ct, r)
        | none => none
  | [] => none

/-- Lazy search for a closing single-character delimiter (`\*.*?\*` and the
backtick pattern): content up to the first delimiter, no line break. -/
def findCloseS (d : Char) : List Char → Option (List Char × List Char)
  | [] => none
  | c :: rest =>
      if c == d then some ([], rest)
      else if isLineBrk c then none
      else
        match findCloseS d rest with
        | some (ct, r) => some (c :: ct, r)
        | none => none

/-- Try the three delimiter alternatives of the inline regular expression at
the current position, in their source order; returns the matched text and
the remainder. -/
def matchTok : List Char → Option (List Char × List Char)
  | '*' :: '*' :: rest =>
      (match findCloseD rest with
       | some (ct, r) => some ('*' :: '*' :: (ct ++ ['*', '*']), r)
       | none =>
         match findCloseS '*' ('*' :: rest) with
         | some (ct, r) => some ('*' :: (ct ++ ['*']), r)
         | none => none)
  | '*' :: rest =>
      (match findCloseS '*' rest with
       | some (ct, r) => some ('*' :: (ct ++ ['*']), r)
       | none => none)
  | '`' :: rest =>
      (match findCloseS '`' rest with
       | some (ct, r) => some ('`' :: (ct ++ ['`']), r)
       | none => none)
  | _ => none

/-- JavaScript `split` with a capturing group: pieces between matches and
the matches themselves, in order, including empty boundary pieces. Fueled
by the input length (each step consumes at least one character). -/
def splitTok : Nat → List Char → List Char → List (List Char)
  | 0, acc, rest => [acc.reverse ++ rest]
  | _ + 1, acc, [] => [acc.reverse]
  | fuel + 1, acc, c :: rest =>
      match matchTok (c :: rest) with
      | some (m, r) => acc.reverse :: m :: splitTok fuel [] r
      | none => splitTok fuel (c :: acc) rest

/-- All parts of `str.split(/(\*\*.*?\*\*|\*.*?\*|` + "`" + `.*?` + "`" + `)/g)`. -/
def jsSplitParts (s : List Char) : List (List Char) :=
  splitTok (s.length + 1) [] s

/-- JavaScript `slice(a, -b)` on a part. -/
def jsSliceCL (p : List Char) (a b : Nat) : List Char :=
  (p.drop a).take (p.length - b - a)

/-- Classification applied to every part of the split, in source order:
`startsWith`/`endsWith` tests for `**`, `*`, backtick, else plain text. -/
def classifyPart (p : List Char) : Inline :=
  if isPrefixCL ['*', '*'] p && isSuffixCL ['*', '*'] p then
    Inline.bold (String.mk (jsSliceCL p 2 2))
  else if isPrefixCL ['*'] p && isSuffixCL ['*'] p then
    Inline.italic (String.mk (jsSliceCL p 1 1))
  else if isPrefixCL ['`'] p && isSuffixCL ['`'] p then
    Inline.code (String.mk (jsSliceCL p 1 1))
  else Inline.plain (String.mk p)

/-- The `parseInline` helper of `ChatRichText`. -/
def parseInline (str : String) : List Inline :=
  (jsSplitParts str.data).map classifyPart

/-- ASCII whitespace, modeling `\s` of the block separator expression. -/
def isWs (c : Char) : Bool :=
  c == ' ' || c == '\t' || c == '\n' || c == '\r' || c == Char.ofNat 11 || c == Char.ofNat 12

/-- Length of the leading whitespace run. -/
def wsRun : List Char → Nat
  | [] => 0
  | c :: r => if isWs c then wsRun r + 1 else 0

/-- Largest index `j ≤ m` at which `t` holds a newline, if any (the greedy
backtracking position of `\s*` before the final `\n`). -/
def lastNlWithin (t : List Char) : Nat → Option Nat
  | 0 => if t.head? = some '\n' then some 0 else none
  | m + 1 => if t.get? (m + 1) = some '\n' then some (m + 1) else lastNlWithin t m

/-- Match of the block separator `/\n\s*\n/` at the current position:
an initial newline, a greedy whitespace run backtracked to end just before
a final newline; returns the rest after the match. -/
def matchBlank : List Char → Option (List Char)
  | '\n' :: t =>
      (match lastNlWithin t (wsRun t) with
       | some j => some (t.drop (j + 1))
       | none => none)
  | _ => none

/-- JavaScript `split(/\n\s*\n/)` (no capturing group: separators dropped). -/
def splitBlk : Nat → List Char → List Char → List (List Char)
  | 0, acc, rest => [acc.reverse ++ rest]
  | _ + 1, acc, [] => [acc.reverse]
  | fuel + 1, acc, c :: rest =>
      match matchBlank (c :: rest) with
      | some r => acc.reverse :: splitBlk fuel [] r
      | none => splitBlk fuel (c :: acc) rest

/-- JavaScript `trim`. -/
def trimCL (l : List Char) : List Char :=
  ((l.dropWhile isWs).reverse.dropWhile isWs).reverse

/-- JavaScript `split('\n')`. -/
def splitLinesCL : List Char → List (List Char)
  | [] => [[]]
  | '\n' :: rest => [] :: splitLinesCL rest
  | c :: rest =>
      match splitLinesCL rest with
      | [] => [[c]]
      | ln :: lns => (c :: ln) :: lns

/-- Length of a numbered-list marker `\d+\. ` at the start of a line. -/
def numMarkerLen (ln : List Char) : Option Nat :=
  let ds := ln.takeWhile Char.isDigit
  if !ds.isEmpty && isPrefixCL ['.', ' '] (ln.drop ds.length) then some (ds.length + 2)
  else none

/-- The multiline tests `trimmed.match(/^- /m) || trimmed.match(/^\d+\. /m)`:
some line starts with a bullet or a numbered marker. -/
def hasListLine (t : List Char) : Bool :=
  (splitLinesCL t).any (fun ln => isPrefixCL ['-', ' '] ln || (numMarkerLen ln).isSome)

/-- The item cleanup `item.replace(/^- |^\d+\. /, '')`: strip one leading
marker, trying the bullet alternative first. -/
def stripMarker (ln : List Char) : List Char :=
  if isPrefixCL ['-', ' '] ln then ln.drop 2
  else
    match numMarkerLen ln with
    | some n => ln.drop n
    | none => ln

/-- Global removal of `> ` (`trimmed.replace(/> /g, '')`). -/
def removeQuoteMarks : List Char → List Char
  | '>' :: ' ' :: rest => removeQuoteMarks rest
  | c :: rest => c :: removeQuoteMarks rest
  | [] => []

/-- Word characters of `\w`. -/
def isWordC (c : Char) : Bool :=
  c.isAlphanum || c == '_'

/-- The opening-fence cleanup `replace(/^` + "```" + `\w*\n?/, '')`. -/
def stripFenceOpen (t : List Char) : List Char :=
  if isPrefixCL ['`', '`', '`'] t then
    let r := t.drop 3
    let r2 := r.drop (r.takeWhile isWordC).length
    match r2 with
    | '\n' :: r3 => r3
    | _ => r2
  else t

/-- The closing-fence cleanup `replace(/` + "```" + `$/, '')`. -/
def stripFenceClose (t : List Char) : List Char :=
  if isSuffixCL ['`', '`', '`'] t then t.take (t.length - 3) else t

/-- Classification of one block of `ChatRichText`, in source order; empty
trimmed blocks render nothing (`return null`). -/
def classifyBlock (bl : List Char) : Option Block :=
  let t := trimCL bl
  if t.isEmpty then none
  else if isPrefixCL ("### ").data t then some (Block.h3 (String.mk (t.drop 4)))
  else if isPrefixCL ("## ").data t then some (Block.h2 (String.mk (t.drop 3)))
  else if isPrefixCL ['`', '`', '`'] t then
    some (Block.codeblock (String.mk (stripFenceClose (stripFenceOpen t))))
  else if hasListLine t then
    some (Block.list ((splitLinesCL t).map (fun ln => (jsSplitParts (stripMarker ln)).map classifyPart)))
  else if isPrefixCL ['>', ' '] t then
    some (Block.quote ((jsSplitParts (removeQuoteMarks t)).map classifyPart))
  else some (Block.para ((jsSplitParts t).map classifyPart))

/-- The `ChatRichText` component as a function from the message text to the
rendered block sequence (`if (!text) return null` handles empty input). -/
def renderText (text : String) : List Block :=
  if text = "" then []
  else (splitBlk (text.data.length + 1) [] text.data).filterMap classifyBlock

/-! ## Chat sessions (`ChatSection` in `ChatAssistant.tsx`) -/

/-- Message author. -/
inductive Role
  | user
  | model
deriving DecidableEq, Repr

/-- One chat message (`ChatMessage` of `types`). -/
structure ChatMessage where
  role : Role
  text : String
  timestamp : Nat
  attachment : Option String
  generatedImage : Option String
deriving DecidableEq, Repr

/-- One persisted chat session (`ChatSession` of `types`). -/
structure ChatSession where
  id : String
  title : String
  timestamp : Nat
  messages : List ChatMessage
deriving DecidableEq, Repr

/-- Title derivation of `createNewSession`. -/
def sessionTitle (firstMessage : ChatMessage) : String :=
  if firstMessage.text.length > 30 then firstMessage.text.take 30 ++ "..."
  else if firstMessage.attachment.isSome then "Image Analysis"
  else firstMessage.text

/-- The `createNewSession` helper: a new session is prepended to the list
and the whole list is persisted (`persistSessions`) unconditionally — the
source applies no length cap to the session list. `now` stands for
`Date.now()`. -/
def createNewSession (sessions : List ChatSession) (firstMessage : ChatMessage) (now : Nat) :
    List ChatSession :=
  { id := toString now, title := sessionTitle firstMessage,
    timestamp := now, messages := [firstMessage] } :: sessions

/-- A fixed user message used in concrete instances. -/
def msg0 : ChatMessage :=
  { role := Role.user, text := ("hello"), timestamp := 0,
    attachment := none, generatedImage := none }

/-! ## Image gallery (`saveToGallery` in `ImageStudio.tsx`) -/

/-- Studio mode tag. -/
inductive StudioMode
  | CREATE
  | EDIT
deriving DecidableEq, Repr

/-- One gallery entry (`ImageHistoryItem` of `types`). -/
structure ImageHistoryItem where
  id : String
  timestamp : Nat
  prompt : String
  imageData : String
  mode : StudioMode
  aspectRatio : Option String
deriving DecidableEq, Repr

/-- Gallery component state together with its persisted copy: `gallery` is
the React state, `stored` the list last written to local storage. -/
structure GalleryState where
  gallery : List ImageHistoryItem
  stored : List ImageHistoryItem
deriving DecidableEq, Repr

/-- The new entry built inside `saveToGallery` (`Date.now()` passed as `now`). -/
def mkGalleryItem (imageData usedPrompt : String) (usedMode : StudioMode)
    (aspectRatio : String) (now : Nat) : ImageHistoryItem :=
  { id := toString now, timestamp := now, prompt := usedPrompt,
    imageData := imageData, mode := usedMode, aspectRatio := some aspectRatio }

/-- The `saveToGallery` helper of `ImageStudio.tsx`: an early return when an
entry with the same image data already exists (nothing is set or persisted),
otherwise prepend the new entry, pop the last entry when the length would
exceed 20, set the state and persist the result. -/
def saveToGallery (st : GalleryState) (imageData usedPrompt : String)
    (usedMode : StudioMode) (aspectRatio : String) (now : Nat) : GalleryState :=
  if st.gallery.any (fun g => g.imageData == imageData) then st
  else
    let newGallery0 := mkGalleryItem imageData usedPrompt usedMode aspectRatio now :: st.gallery
    let newGallery := if newGallery0.length > 20 then newGallery0.dropLast else newGallery0
    { gallery := newGallery, stored := newGallery }

/-! ## Infographic batch generation (`generateAllImages` / `generateSingleItem`) -/

/-- Per-item generation status. -/
inductive ItemStatus
  | pending
  | generating
  | done
  | failed
deriving DecidableEq, Repr

/-- One infographic item (the fields `generateSingleItem` touches). -/
structure InfographicItem where
  id : Nat
  visualPrompt : String
  status : ItemStatus
  imageData : Option String
deriving DecidableEq, Repr

/-- The keyed update pattern
`setItems(prev => prev.map(p => p.id === item.id ? { ...p, ... } : p))`. -/
def setItemsMap (items : List InfographicItem) (target : Nat)
    (f : InfographicItem → InfographicItem) : List InfographicItem :=
  items.map (fun p => if p.id = target then f p else p)

/-- The `generateSingleItem` handler for item `target`, taking the settled
outcome of its `generateImage` call: mark the item generating, then mark it
done with the image data on success, or failed on error (the try/catch
around the remote call makes the handler total — no exception escapes). -/
def generateSingleItem (oc : Except String String) (target : Nat)
    (items : List InfographicItem) : List InfographicItem :=
  let items1 := setItemsMap items target (fun p => { p with status := ItemStatus.generating })
  match oc with
  | Except.ok url =>
      setItemsMap items1 target (fun p => { p with status := ItemStatus.done, imageData := some url })
  | Except.error _ =>
      setItemsMap items1 target (fun p => { p with status := ItemStatus.failed })

/-- The `generateAllImages` handler: one `generateSingleItem` per item,
joined with `Promise.allSettled`. Each member updates only the items with
its own id, so the settled batch state is the sequential composition of the
per-member updates (the interleaving cannot change the result). -/
def generateAllImages (oc : Nat → Except String String) (targets : List Nat)
    (items : List InfographicItem) : List InfographicItem :=
  targets.foldl (fun st t => generateSingleItem (oc t) t st) items

/-- Concrete three-item batch used in instances. -/
def demoItems : List InfographicItem :=
  [{ id := 1, visualPrompt := ("a city"), status := ItemStatus.pending, imageData := none },
   { id := 2, visualPrompt := ("a map"), status := ItemStatus.pending, imageData := none },
   { id := 3, visualPrompt := ("a chart"), status := ItemStatus.pending, imageData := none }]

/-- Outcome where only item 2 of the batch fails. -/
def demoOutcome : Nat → Except String String :=
  fun n => if n = 2 then Except.error ("service unavailable") else Except.ok ("img-data")

/-! ## Remote-call failure handling at the other call sites -/

/-- Response shape of the chat service. -/
structure ChatServiceResponse where
  text : String
  generatedImage : Option String
deriving DecidableEq, Repr

/-- Result of one run of `handleSend` in `ChatSection`: the messages state,
the `isLoading` flag when the run ends, and the exception that escaped the
handler, if any. -/
structure SendResult where
  messages : List ChatMessage
  isLoading : Bool
  uncaught : Option String
deriving DecidableEq, Repr

/-- The `handleSend` handler of `ChatSection`, taking the settled outcome of
its `sendChatMessage` call. The user message is appended and `isLoading`
set before the call; the body has no try/catch, so a rejected call leaves
`isLoading` true and the error escapes the handler (`uncaught`). On success
the model reply is appended and `isLoading` cleared. -/
def chatHandleSend (svc : Except String ChatServiceResponse)
    (messages : List ChatMessage) (userMsg : ChatMessage) (now : Nat) : SendResult :=
  let newMessages := messages ++ [userMsg]
  match svc with
  | Except.ok resp =>
      { messages := newMessages ++
          [{ role := Role.model, text := resp.text, timestamp := now,
             attachment := none, generatedImage := resp.generatedImage }],
        isLoading := false, uncaught := none }
  | Except.error e =>
      { messages := newMessages, isLoading := true, uncaught := some e }

/-- User-facing outcome of one run of `handleAction` in `ImageStudio.tsx`. -/
inductive StudioActionOutcome
  | success (results : List String)
  | alerted (message : String)
deriving DecidableEq, Repr

/-- The `handleAction` handler of `ImageStudio.tsx`, taking the settled
outcome of the generate/edit call: its try/catch turns every failure into a
blocking alert, and the finally clause always clears `isGenerating` (the
returned Bool). -/
def studioHandleAction (mode : StudioMode) (svc : Except String (List String)) :
    StudioActionOutcome × Bool :=
  match svc with
  | Except.ok results => (StudioActionOutcome.success results, false)
  | Except.error _ =>
      (StudioActionOutcome.alerted
        (if mode = StudioMode.CREATE then ("Failed to generate image. Please try again.")
         else ("Failed to process image. Please try again.")), false)

/-- Wizard state at the intake step with a non-empty pasted text. -/
def intakeFilled : WizardState :=
  { mode := Mode.WIZARD, step := -1,
    answers := updateAns emptyAnswers QKey.existingContent ("My story so far"),
    quickFeedback := none }

/-- Final state of one item for one settled outcome of its own remote call
(the composition of the two keyed updates of `generateSingleItem`). -/
def resolveOne (r : Except String String) (p : InfographicItem) : InfographicItem :=
  match r with
  | Except.ok url => { p with status := ItemStatus.done, imageData := some url }
  | Except.error _ => { p with status := ItemStatus.failed }

/-- One batch member applied to one item: only the item with the member id
changes. -/
def resolveStep (oc : Nat → Except String String) (p : InfographicItem) (t : Nat) :
    InfographicItem :=
  if p.id = t then resolveOne (oc t) p else p

/-- All batch members applied to one item in sequence. -/
def applySeq (oc : Nat → Except String String) (tids : List Nat) (p : InfographicItem) :
    InfographicItem :=
  tids.foldl (resolveStep oc) p

/-- The failed middle item of the demo batch after it settles. -/
def demoFailedItem : InfographicItem :=
  { id := 2, visualPrompt := ("a map"), status := ItemStatus.failed, imageData := none }

/-- A gallery already holding 20 distinct entries. -/
def demoGallery20 : GalleryState :=
  { gallery := (List.range 20).map
      (fun n => mkGalleryItem (toString n) ("p") StudioMode.CREATE ("1:1") n),
    stored := (List.range 20).map
      (fun n => mkGalleryItem (toString n) ("p") StudioMode.CREATE ("1:1") n) }

/-- A gallery already holding an entry with image data `dup`. -/
def dupGallery : GalleryState :=
  { gallery := [mkGalleryItem ("dup") ("p") StudioMode.CREATE ("1:1") 3],
    stored := [mkGalleryItem ("dup") ("p") StudioMode.CREATE ("1:1") 3] }

/-! ## Helper lemmas -/

/-- Rendered-step key for a question step recovered from `QUESTIONS`. -/
theorem qidAt_of_get {step : Int} {q : QuestionConfig} (h0 : 0 ≤ step)
    (hq : QUESTIONS.get? step.toNat = some q) : qidAt step = some q.id := by
  unfold qidAt
  rw [if_neg (by omega), if_neg (by omega), hq]
  rfl

/-- The `handleChange` handler never moves the step. -/
theorem handleChange_step (v : String) (s : WizardState) :
    (handleChange v s).step = s.step := by
  unfold handleChange
  cases qidAt s.step <;> rfl

/-- The `handleChange` handler never changes the mode. -/
theorem handleChange_mode (v : String) (s : WizardState) :
    (handleChange v s).mode = s.mode := by
  unfold handleChange
  cases qidAt s.step <;> rfl

/-- Step image of `handleNext`. -/
theorem handleNext_step (s : WizardState) :
    (handleNext s).step =
      if s.step < (QUESTIONS.length : Int) - 1 then s.step + 1 else (QUESTIONS.length : Int) := by
  unfold handleNext
  split_ifs <;> rfl

/-- The `handleNext` handler never touches the answers object. -/
theorem handleNext_answers (s : WizardState) : (handleNext s).answers = s.answers := by
  unfold handleNext
  split_ifs <;> rfl

/-- The guarded next action never touches the answers object. -/
theorem doNext_answers (s : WizardState) : (doNext s).answers = s.answers := by
  unfold doNext
  split_ifs with h
  · exact handleNext_answers s
  · rfl

/-- The `handleBack` handler never touches the answers object. -/
theorem handleBack_answers (s : WizardState) : (handleBack s).answers = s.answers := by
  unfold handleBack
  split_ifs <;> rfl

/-- Step image of `handleBack`: unchanged, `-1`, or one lower (the last
only from a strictly positive step). -/
theorem handleBack_step (s : WizardState) :
    (handleBack s).step = s.step ∨ (handleBack s).step = -1 ∨
      (0 < s.step ∧ (handleBack s).step = s.step - 1) := by
  unfold handleBack
  split_ifs with hA hB hC hD
  · left; rfl
  · left; rfl
  · right; left; rfl
  · right; right; exact ⟨hD, rfl⟩
  · left; rfl

/-- The `appendOption` handler never moves the step. -/
theorem appendOption_step (v : String) (s : WizardState) :
    (appendOption v s).step = s.step := by
  unfold appendOption
  split_ifs with h
  · rfl
  · cases hq : QUESTIONS.get? s.step.toNat with
    | none => simp [hq]
    | some q =>
      simp only [hq]
      split_ifs with h2 <;> first
        | rfl
        | exact handleChange_step _ _

/-- Prefix test is reflexive. -/
theorem isPrefixCL_refl (l : List Char) : isPrefixCL l l = true := by
  induction l with
  | nil => rfl
  | cons c r ih => simp [isPrefixCL, ih]

/-- A list is found inside anything that ends with it. -/
theorem containsSub_append_self (l sub : List Char) :
    containsSub sub (l ++ sub) = true := by
  induction l with
  | nil =>
    cases sub with
    | nil => rfl
    | cons c r => simp [containsSub, isPrefixCL_refl]
  | cons c r ih => simp [containsSub, ih]

/-- JavaScript `includes` finds a string inside anything that ends with it. -/
theorem jsIncludes_append_self (a v : String) : jsIncludes (a ++ v) v = true := by
  show containsSub v.data (a ++ v).data = true
  have hd : (a ++ v).data = a.data ++ v.data := rfl
  rw [hd]
  exact containsSub_append_self a.data v.data

/-! ## Claim C1 — back navigation from question 0 -/

/-- Counterexample to claim C1 as stated: at `Question(0)` with the
existing-content answer present but equal to the empty string, `handleBack`
returns to `Select` (truthiness treats the present-but-empty string as
unset); it does not go to `Intake(-1)`. -/
theorem wizard_back_present_empty_cex :
    (handleBack presentEmptyAt0).mode = Mode.SELECT ∧
    (handleBack presentEmptyAt0).step = 0 := by
  constructor <;> decide

/-- Claim C1 (amended): `back` from `Question(0)` returns to `Select` when
the existing-content answer is absent or the empty string, moves to
`Intake(-1)` when it is a non-empty string, and from `Question(i)` with
`i > 0` moves to `Question(i-1)`. -/
theorem wizard_back_amended (s : WizardState) :
    (s.step = 0 → truthy (s.answers QKey.existingContent) = false →
      (handleBack s).mode = Mode.SELECT ∧ (handleBack s).step = 0) ∧
    (s.step = 0 → truthy (s.answers QKey.existingContent) = true →
      (handleBack s).step = -1 ∧ (handleBack s).mode = s.mode) ∧
    (0 < s.step →
      (handleBack s).step = s.step - 1 ∧ (handleBack s).mode = s.mode) := by
  refine ⟨?_, ?_, ?_⟩
  · intro h0 hf
    unfold handleBack
    rw [if_pos ⟨h0, hf⟩]
    exact ⟨rfl, h0⟩
  · intro h0 ht
    unfold handleBack
    rw [if_neg (by simp [ht]), if_neg (by omega), if_pos ⟨h0, ht⟩]
    exact ⟨rfl, rfl⟩
  · intro hp
    unfold handleBack
    rw [if_neg (by rintro ⟨h, -⟩; omega), if_neg (by omega),
        if_neg (by rintro ⟨h, -⟩; omega), if_pos hp]
    exact ⟨rfl, rfl⟩

/-- Witness for `wizard_back_amended` at the three concrete states. -/
theorem wizard_back_amended_witness :
    ((handleBack presentEmptyAt0).mode = Mode.SELECT ∧ (handleBack presentEmptyAt0).step = 0) ∧
    ((handleBack nonEmptyAt0).step = -1 ∧ (handleBack nonEmptyAt0).mode = nonEmptyAt0.mode) ∧
    ((handleBack midStep5).step = midStep5.step - 1 ∧ (handleBack midStep5).mode = midStep5.mode) :=
  ⟨(wizard_back_amended presentEmptyAt0).1 (by decide) (by decide),
   (wizard_back_amended nonEmptyAt0).2.1 (by decide) (by decide),
   (wizard_back_amended midStep5).2.2 (by decide)⟩

/-! ## Claim C2 — forward gating of the next action -/

/-- Counterexample to claim C2 as stated: right after `startContinue` the
existing-content answer is the empty string, and the next action at
`Intake(-1)` is blocked by the disabled guard (the state is unchanged and
the step stays `-1`), so intake does have a validation gate. -/
theorem wizard_next_intake_gate_cex :
    doNext (startContinue initialState) = startContinue initialState ∧
    (doNext (startContinue initialState)).step = -1 := by
  exact ⟨rfl, by decide⟩

/-- Claim C2 (amended): `next` from `Intake(-1)` moves to `Question(0)`
without touching the answers, but only when the existing-content answer is
non-empty — with an empty (or absent) existing-content answer the next
action is blocked, exactly as it is blocked at every `Question(i)` whose
answer is empty. -/
theorem wizard_next_gating_amended (s : WizardState) :
    (s.step = -1 → truthy (s.answers QKey.existingContent) = false → doNext s = s) ∧
    (s.step = -1 → truthy (s.answers QKey.existingContent) = true →
      (doNext s).step = 0 ∧ (doNext s).answers = s.answers) ∧
    (∀ q : QuestionConfig, 0 ≤ s.step → QUESTIONS.get? s.step.toNat = some q →
      truthy (s.answers q.id) = false → doNext s = s) := by
  refine ⟨?_, ?_, ?_⟩
  · intro h ht
    have he : nextEnabled s = false := by
      unfold nextEnabled qidAt
      rw [if_pos h]
      exact ht
    simp [doNext, he]
  · intro h ht
    have he : nextEnabled s = true := by
      unfold nextEnabled qidAt
      rw [if_pos h]
      exact ht
    have hd : doNext s = handleNext s := by simp [doNext, he]
    rw [hd]
    constructor
    · rw [handleNext_step s, if_pos (by rw [h]; decide), h]
      decide
    · exact handleNext_answers s
  · intro q h0 hq ht
    have he : nextEnabled s = false := by
      unfold nextEnabled
      rw [qidAt_of_get h0 hq]
      exact ht
    simp [doNext, he]

/-- Witness for `wizard_next_gating_amended`: blocked at the freshly entered
intake step, advancing from a filled intake, blocked at question 0 with an
empty core premise. -/
theorem wizard_next_gating_amended_witness :
    (doNext (startContinue initialState) = startContinue initialState) ∧
    ((doNext intakeFilled).step = 0 ∧ (doNext intakeFilled).answers = intakeFilled.answers) ∧
    (doNext (startNew initialState) = startNew initialState) :=
  ⟨(wizard_next_gating_amended (startContinue initialState)).1 (by decide) (by decide),
   (wizard_next_gating_amended intakeFilled).2.1 (by decide) (by decide),
   (wizard_next_gating_amended (startNew initialState)).2.2
     ⟨QKey.corePremise, []⟩ (by decide) (by decide) (by decide)⟩

/-! ## Claim C3 — option-chip append -/

/-- JavaScript `includes` finds a string inside itself. -/
theorem jsIncludes_self (v : String) : jsIncludes v v = true := by
  show containsSub v.data v.data = true
  have h := containsSub_append_self [] v.data
  simpa using h

/-- Reduction of `appendOption` on a question step. -/
theorem appendOption_eq (v : String) (s : WizardState) (q : QuestionConfig)
    (h0 : 0 ≤ s.step) (hq : QUESTIONS.get? s.step.toNat = some q) :
    appendOption v s =
      (if jsIncludes ((s.answers q.id).getD ("")) v then s
       else handleChange (if (s.answers q.id).getD ("") = "" then v
              else (s.answers q.id).getD ("") ++ ", " ++ v) s) := by
  unfold appendOption
  rw [if_neg (by omega), hq]

/-- Writing the current answer stores exactly the given value. -/
theorem handleChange_answers_at (v : String) (s : WizardState) (q : QuestionConfig)
    (h0 : 0 ≤ s.step) (hq : QUESTIONS.get? s.step.toNat = some q) :
    (handleChange v s).answers q.id = some v := by
  unfold handleChange
  rw [qidAt_of_get h0 hq]
  simp [updateAns]

/-- Claim C3: on a question step, selecting an option chip appends its
value to the current answer with a comma-plus-space join (just the value
when the answer is empty), is a no-op when the value already occurs in the
answer, and is therefore idempotent. -/
theorem wizard_append_option_spec (s : WizardState) (q : QuestionConfig) (v : String)
    (h0 : 0 ≤ s.step) (hq : QUESTIONS.get? s.step.toNat = some q) :
    (jsIncludes ((s.answers q.id).getD ("")) v = true → appendOption v s = s) ∧
    (jsIncludes ((s.answers q.id).getD ("")) v = false →
      (appendOption v s).answers q.id =
        some (if (s.answers q.id).getD ("") = "" then v
              else (s.answers q.id).getD ("") ++ ", " ++ v)) ∧
    appendOption v (appendOption v s) = appendOption v s := by
  have hred := appendOption_eq v s q h0 hq
  refine ⟨?_, ?_, ?_⟩
  · intro hin
    rw [hred, if_pos hin]
  · intro hnin
    rw [hred, if_neg (by simp [hnin])]
    exact handleChange_answers_at _ s q h0 hq
  · by_cases hin : jsIncludes ((s.answers q.id).getD ("")) v = true
    · have h1 : appendOption v s = s := by rw [hred, if_pos hin]
      rw [h1]
      exact h1
    · have hnin : jsIncludes ((s.answers q.id).getD ("")) v = false := by
        simpa using hin
      set nv := (if (s.answers q.id).getD ("") = "" then v
                 else (s.answers q.id).getD ("") ++ ", " ++ v) with hnv
      have h1 : appendOption v s = handleChange nv s := by
        rw [hred, if_neg (by simp [hnin])]
      have hstep' : (handleChange nv s).step = s.step := handleChange_step _ _
      have hq' : QUESTIONS.get? (handleChange nv s).step.toNat = some q := by
        rw [hstep']
        exact hq
      have h0' : (0 : Int) ≤ (handleChange nv s).step := by
        rw [hstep']
        exact h0
      have hans : (handleChange nv s).answers q.id = some nv :=
        handleChange_answers_at nv s q h0 hq
      have hin' : jsIncludes (((handleChange nv s).answers q.id).getD ("")) v = true := by
        rw [hans]
        show jsIncludes nv v = true
        by_cases hc : (s.answers q.id).getD ("") = ""
        · rw [hnv, if_pos hc]
          exact jsIncludes_self v
        · rw [hnv, if_neg hc]
          exact jsIncludes_append_self _ v
      have hred' := appendOption_eq v (handleChange nv s) q h0' hq'
      rw [h1, hred', if_pos hin']

/-- Witness for `wizard_append_option_spec` at question 0 of a fresh
session. -/
theorem wizard_append_option_spec_witness :
    (jsIncludes (((startNew initialState).answers QKey.corePremise).getD ("")) ("A heist") = true →
      appendOption ("A heist") (startNew initialState) = startNew initialState) ∧
    (jsIncludes (((startNew initialState).answers QKey.corePremise).getD ("")) ("A heist") = false →
      (appendOption ("A heist") (startNew initialState)).answers QKey.corePremise =
        some (if ((startNew initialState).answers QKey.corePremise).getD ("") = "" then ("A heist")
              else ((startNew initialState).answers QKey.corePremise).getD ("") ++ ", " ++ ("A heist"))) ∧
    appendOption ("A heist") (appendOption ("A heist") (startNew initialState)) =
      appendOption ("A heist") (startNew initialState) := by
  have h := wizard_append_option_spec (startNew initialState) ⟨QKey.corePremise, []⟩
    ("A heist") (by decide) (by decide)
  exact h

/-! ## Claim C4 — navigation never modifies the answers -/

/-- Claim C4: within one wizard session, applying any sequence of next/back
navigation actions leaves every answer unchanged — navigation has no effect
on the answers object. -/
theorem wizard_nav_preserves_answers (acts : List NavAction) :
    ∀ (s : WizardState) (k : QKey), (runNav s acts).answers k = s.answers k := by
  induction acts with
  | nil => intro s k; rfl
  | cons a as ih =>
    intro s k
    have hstep : (applyNav s a).answers k = s.answers k := by
      cases a with
      | nxt => rw [show (applyNav s NavAction.nxt) = doNext s from rfl, doNext_answers s]
      | bck => rw [show (applyNav s NavAction.bck) = handleBack s from rfl, handleBack_answers s]
    calc (runNav s (a :: as)).answers k
        = (runNav (applyNav s a) as).answers k := rfl
      _ = (applyNav s a).answers k := ih _ _
      _ = s.answers k := hstep

/-! ## Claim C5 — step stays in the wizard domain -/

/-- One wizard action keeps the step inside `[-1, 11]`. -/
theorem applyWA_step_inv (a : WAction) (s : WizardState)
    (h1 : -1 ≤ s.step) (h2 : s.step ≤ 11) :
    -1 ≤ (applyWA s a).step ∧ (applyWA s a).step ≤ 11 := by
  have hl : (QUESTIONS.length : Int) = 11 := by decide
  cases a with
  | wnext =>
    show -1 ≤ (doNext s).step ∧ (doNext s).step ≤ 11
    unfold doNext
    split_ifs with h
    · rw [handleNext_step s, hl]
      split_ifs with h3 <;> omega
    · exact ⟨h1, h2⟩
  | wback =>
    show -1 ≤ (handleBack s).step ∧ (handleBack s).step ≤ 11
    rcases handleBack_step s with h | h | ⟨hp, h⟩ <;> rw [h]
    · exact ⟨h1, h2⟩
    · exact ⟨by omega, by omega⟩
    · exact ⟨by omega, by omega⟩
  | wchange v =>
    show -1 ≤ (handleChange v s).step ∧ (handleChange v s).step ≤ 11
    rw [handleChange_step v s]
    exact ⟨h1, h2⟩
  | wappend v =>
    show -1 ≤ (appendOption v s).step ∧ (appendOption v s).step ≤ 11
    rw [appendOption_step v s]
    exact ⟨h1, h2⟩

/-- Any action sequence keeps the step inside `[-1, 11]`. -/
theorem runW_step_inv (acts : List WAction) :
    ∀ s : WizardState, -1 ≤ s.step → s.step ≤ 11 →
      -1 ≤ (runW s acts).step ∧ (runW s acts).step ≤ 11 := by
  induction acts with
  | nil => intro s h1 h2; exact ⟨h1, h2⟩
  | cons a as ih =>
    intro s h1 h2
    have h := applyWA_step_inv a s h1 h2
    exact ih (applyWA s a) h.1 h.2

/-- Claim C5: there are `N = 11` questions; from either wizard entry point
every action sequence keeps the step inside `{-1} ∪ [0, 10] ∪ {11}`;
`handleNext` from `Question(N-1)` lands exactly on the review step `N`, and
`handleNext` at step `N` stays at `N`. -/
theorem wizard_step_domain :
    QUESTIONS.length = 11 ∧
    (∀ (s0 : WizardState) (acts : List WAction),
      s0 = startNew initialState ∨ s0 = startContinue initialState →
      -1 ≤ (runW s0 acts).step ∧ (runW s0 acts).step ≤ 11) ∧
    (∀ s : WizardState, s.step = (QUESTIONS.length : Int) - 1 →
      (handleNext s).step = (QUESTIONS.length : Int)) ∧
    (∀ s : WizardState, s.step = (QUESTIONS.length : Int) →
      (handleNext s).step = (QUESTIONS.length : Int)) := by
  have hl : (QUESTIONS.length : Int) = 11 := by decide
  refine ⟨by decide, ?_, ?_, ?_⟩
  · rintro s0 acts (rfl | rfl)
    · exact runW_step_inv acts _ (by decide) (by decide)
    · exact runW_step_inv acts _ (by decide) (by decide)
  · intro s h
    rw [hl] at h
    rw [handleNext_step s, hl, if_neg (by omega)]
  · intro s h
    rw [hl] at h
    rw [handleNext_step s, hl, if_neg (by omega)]

/-- Witness for `wizard_step_domain` on a concrete run and concrete
boundary states. -/
theorem wizard_step_domain_witness :
    QUESTIONS.length = 11 ∧
    (-1 ≤ (runW (startNew initialState) [WAction.wback, WAction.wnext]).step ∧
      (runW (startNew initialState) [WAction.wback, WAction.wnext]).step ≤ 11) ∧
    (handleNext lastQuestionState).step = (QUESTIONS.length : Int) ∧
    (handleNext reviewState).step = (QUESTIONS.length : Int) :=
  ⟨wizard_step_domain.1,
   wizard_step_domain.2.1 (startNew initialState) [WAction.wback, WAction.wnext] (Or.inl rfl),
   wizard_step_domain.2.2.1 lastQuestionState (by decide),
   wizard_step_domain.2.2.2 reviewState (by decide)⟩

/-! ## Claim C6 — rendering of the mixed inline example -/

/-- Counterexample to claim C6 as stated: the rendered paragraph is not the
five-span list of the claim, because the JavaScript split keeps the empty
fragments before the first and after the last delimiter match. -/
theorem rich_text_example_cex :
    (renderText ("**bold** and *italic* and `code`") ==
      [Block.para [Inline.bold ("bold"), Inline.plain (" and "), Inline.italic ("italic"),
        Inline.plain (" and "), Inline.code ("code")]]) = false := by
  decide

/-- Claim C6 (amended): the input renders as exactly one paragraph whose
span sequence is the claimed one with an empty plain-text fragment added at
each end; discarding empty plain-text fragments (which render as nothing)
leaves exactly the five claimed spans. -/
theorem rich_text_example_amended :
    renderText ("**bold** and *italic* and `code`") =
      [Block.para [Inline.plain (""), Inline.bold ("bold"), Inline.plain (" and "),
        Inline.italic ("italic"), Inline.plain (" and "), Inline.code ("code"),
        Inline.plain ("")]] ∧
    (renderText ("**bold** and *italic* and `code`")).map
        (fun b => match b with
          | Block.para spans => Block.para (spans.filter (fun sp => sp != Inline.plain ("")))
          | other => other) =
      [Block.para [Inline.bold ("bold"), Inline.plain (" and "), Inline.italic ("italic"),
        Inline.plain (" and "), Inline.code ("code")]] := by
  constructor <;> decide

/-! ## Claim C7 — the infographic batch settles every item -/

/-- Pointwise form of `generateSingleItem`: the two keyed updates compose
into one. -/
theorem generateSingleItem_eq (r : Except String String) (t : Nat)
    (items : List InfographicItem) :
    generateSingleItem r t items =
      items.map (fun p => if p.id = t then resolveOne r p else p) := by
  unfold generateSingleItem setItemsMap
  cases r with
  | ok url =>
    dsimp only
    rw [List.map_map]
    refine congrArg (fun f => items.map f) (funext fun p => ?_)
    by_cases h : p.id = t
    · simp [h, Function.comp, resolveOne]
    · simp [h, Function.comp, resolveOne]
  | error e =>
    dsimp only
    rw [List.map_map]
    refine congrArg (fun f => items.map f) (funext fun p => ?_)
    by_cases h : p.id = t
    · simp [h, Function.comp, resolveOne]
    · simp [h, Function.comp, resolveOne]

/-- The batch fold is a map of the per-item sequence of member updates. -/
theorem generateAllImages_eq (oc : Nat → Except String String) (tids : List Nat) :
    ∀ items : List InfographicItem,
      generateAllImages oc tids items = items.map (applySeq oc tids) := by
  induction tids with
  | nil =>
    intro items
    show items = items.map (applySeq oc [])
    rw [show applySeq oc [] = id from funext fun p => rfl, List.map_id]
  | cons t ts ih =>
    intro items
    show generateAllImages oc ts (generateSingleItem (oc t) t items) = _
    rw [ih, generateSingleItem_eq, List.map_map]
    refine congrArg (fun f => items.map f) (funext fun p => ?_)
    rfl

/-- A member update never changes an item id. -/
theorem resolveStep_id (oc : Nat → Except String String) (p : InfographicItem) (t : Nat) :
    (resolveStep oc p t).id = p.id := by
  unfold resolveStep resolveOne
  split_ifs with h
  · cases oc t <;> rfl
  · rfl

/-- The member-update sequence never changes an item id. -/
theorem applySeq_id (oc : Nat → Except String String) (tids : List Nat) :
    ∀ p : InfographicItem, (applySeq oc tids p).id = p.id := by
  induction tids with
  | nil => intro p; rfl
  | cons t ts ih =>
    intro p
    show (applySeq oc ts (resolveStep oc p t)).id = p.id
    rw [ih, resolveStep_id]

/-- Items whose id is not in the batch are untouched. -/
theorem applySeq_not_mem (oc : Nat → Except String String) (tids : List Nat) :
    ∀ p : InfographicItem, p.id ∉ tids → applySeq oc tids p = p := by
  induction tids with
  | nil => intro p _; rfl
  | cons t ts ih =>
    intro p h
    show applySeq oc ts (resolveStep oc p t) = p
    have hne : ¬ p.id = t := fun hh => h (by rw [hh]; exact List.mem_cons_self t ts)
    have hstep : resolveStep oc p t = p := by unfold resolveStep; rw [if_neg hne]
    rw [hstep]
    exact ih p (fun hh => h (List.mem_cons_of_mem t hh))

/-- Items whose id is in the batch end resolved by their own outcome. -/
theorem applySeq_resolved (oc : Nat → Except String String) (tids : List Nat) :
    ∀ p : InfographicItem, p.id ∈ tids →
      ((∃ url, oc p.id = Except.ok url ∧ (applySeq oc tids p).status = ItemStatus.done ∧
          (applySeq oc tids p).imageData = some url) ∨
       (∃ e, oc p.id = Except.error e ∧ (applySeq oc tids p).status = ItemStatus.failed)) := by
  induction tids with
  | nil => intro p h; simp at h
  | cons t ts ih =>
    intro p hmem
    by_cases hts : p.id ∈ ts
    · have h := ih (resolveStep oc p t) (by rw [resolveStep_id]; exact hts)
      rw [resolveStep_id] at h
      exact h
    · have hpt : p.id = t := by
        rcases List.mem_cons.mp hmem with h | h
        · exact h
        · exact absurd h hts
      have hstep : applySeq oc (t :: ts) p = resolveStep oc p t := by
        show applySeq oc ts (resolveStep oc p t) = resolveStep oc p t
        exact applySeq_not_mem oc ts _ (by rw [resolveStep_id]; exact hts)
      rw [hstep]
      unfold resolveStep resolveOne
      rw [if_pos hpt, hpt]
      cases hoc : oc t with
      | ok url => exact Or.inl ⟨url, rfl, rfl, rfl⟩
      | error e => exact Or.inr ⟨e, rfl, rfl⟩

/-- Claim C7: when the batch issues one request per item, every item of the
settled batch ends either done (carrying the image data of its own
successful call) or failed (its own call failed) — no item stays pending or
generating, and one failure never changes a sibling. -/
theorem infographic_batch_settles (oc : Nat → Except String String)
    (items : List InfographicItem) (it2 : InfographicItem)
    (hmem : it2 ∈ generateAllImages oc (items.map (fun p => p.id)) items) :
    (∃ url, oc it2.id = Except.ok url ∧ it2.status = ItemStatus.done ∧
      it2.imageData = some url) ∨
    (∃ e, oc it2.id = Except.error e ∧ it2.status = ItemStatus.failed) := by
  rw [generateAllImages_eq] at hmem
  rcases List.mem_map.mp hmem with ⟨p, hp, rfl⟩
  have hid : p.id ∈ items.map (fun p => p.id) := List.mem_map.mpr ⟨p, hp, rfl⟩
  have h := applySeq_resolved oc (items.map (fun p => p.id)) p hid
  rw [applySeq_id]
  exact h

/-- Witness for `infographic_batch_settles`: in the three-item demo batch
where only item 2 fails, the settled batch contains item 2 with a failed
status, and the theorem classifies it. -/
theorem infographic_batch_settles_witness :
    demoFailedItem ∈ generateAllImages demoOutcome (demoItems.map (fun p => p.id)) demoItems ∧
    ((∃ url, demoOutcome demoFailedItem.id = Except.ok url ∧
        demoFailedItem.status = ItemStatus.done ∧ demoFailedItem.imageData = some url) ∨
     (∃ e, demoOutcome demoFailedItem.id = Except.error e ∧
        demoFailedItem.status = ItemStatus.failed)) :=
  ⟨by decide,
   infographic_batch_settles demoOutcome demoItems demoFailedItem (by decide)⟩

/-! ## Claim C8 — remote-call failures at the call sites -/

/-- Counterexample to claim C8 as stated: the chat send call site has no
try/catch, so a failed `sendChatMessage` call escapes `handleSend` as an
uncaught rejection and leaves the loading flag stuck. -/
theorem chat_send_uncaught_cex :
    (chatHandleSend (Except.error ("Network error")) [] msg0 1).uncaught =
      some ("Network error") ∧
    (chatHandleSend (Except.error ("Network error")) [] msg0 1).isLoading = true :=
  ⟨rfl, rfl⟩

/-- Claim C8 (amended): the image studio action surfaces every remote
failure as a blocking alert and always clears its busy flag, and the
per-item infographic generation surfaces every remote failure as a failed
status on its own item only — but the chat send call site catches nothing:
the failure escapes the handler and the loading flag stays set. -/
theorem remote_failure_handling_amended :
    (∀ (mode : StudioMode) (e : String),
      studioHandleAction mode (Except.error e) =
        (StudioActionOutcome.alerted
          (if mode = StudioMode.CREATE then ("Failed to generate image. Please try again.")
           else ("Failed to process image. Please try again.")), false)) ∧
    (∀ (e : String) (t : Nat) (items : List InfographicItem),
      generateSingleItem (Except.error e) t items =
        items.map (fun p => if p.id = t then { p with status := ItemStatus.failed } else p)) ∧
    (∀ (e : String) (msgs : List ChatMessage) (um : ChatMessage) (now : Nat),
      (chatHandleSend (Except.error e) msgs um now).uncaught = some e ∧
      (chatHandleSend (Except.error e) msgs um now).isLoading = true) := by
  refine ⟨?_, ?_, ?_⟩
  · intro mode e
    rfl
  · intro e t items
    rw [generateSingleItem_eq]
    refine congrArg (fun f => items.map f) (funext fun p => ?_)
    by_cases h : p.id = t
    · simp [h, resolveOne]
    · simp [h, resolveOne]
  · intro e msgs um now
    exact ⟨rfl, rfl⟩

/-! ## Claim C9 — storage caps -/

/-- Counterexample to claim C9 as stated: the chat-session list has no cap
at all — 25 insertions leave 25 sessions, above the only cap constant in
the program (the 20-entry gallery cap), and every insertion grows the list. -/
theorem chat_sessions_uncapped_cex :
    (List.foldl (fun ss n => createNewSession ss msg0 n) [] (List.range 25)).length = 25 := by
  decide

/-- The `dropLast` of a cons with a non-empty tail keeps the head. -/
theorem dropLast_cons_ne {α : Type} (a : α) (l : List α) (h : l ≠ []) :
    (a :: l).dropLast = a :: l.dropLast := by
  cases l with
  | nil => exact absurd rfl h
  | cons b r => rfl

/-- Claim C9 (amended): the image gallery alone is capped — a save never
grows it past 20 entries, and a non-duplicate save into a full gallery
prepends the new entry and drops the last (oldest) one — while the
chat-session list is not capped: every insertion grows it by one. -/
theorem storage_caps_amended :
    (∀ (st : GalleryState) (d p : String) (m : StudioMode) (ar : String) (now : Nat),
      st.gallery.length ≤ 20 → (saveToGallery st d p m ar now).gallery.length ≤ 20) ∧
    (∀ (st : GalleryState) (d p : String) (m : StudioMode) (ar : String) (now : Nat),
      st.gallery.any (fun g => g.imageData == d) = false → st.gallery.length = 20 →
      (saveToGallery st d p m ar now).gallery =
        mkGalleryItem d p m ar now :: st.gallery.dropLast) ∧
    (∀ (sessions : List ChatSession) (m : ChatMessage) (now : Nat),
      (createNewSession sessions m now).length = sessions.length + 1) := by
  refine ⟨?_, ?_, ?_⟩
  · intro st d p m ar now hlen
    unfold saveToGallery
    dsimp only
    split_ifs with h1 h2
    · exact hlen
    · simp only [List.length_dropLast, List.length_cons]
      omega
    · simp only [List.length_cons] at h2 ⊢
      omega
  · intro st d p m ar now hdup hlen
    unfold saveToGallery
    rw [if_neg (by simp [hdup])]
    have hg : st.gallery ≠ [] := by
      intro hnil
      rw [hnil] at hlen
      simp at hlen
    have hlen2 : (mkGalleryItem d p m ar now :: st.gallery).length > 20 := by
      simp only [List.length_cons, hlen]
      omega
    show (if (mkGalleryItem d p m ar now :: st.gallery).length > 20
          then (mkGalleryItem d p m ar now :: st.gallery).dropLast
          else mkGalleryItem d p m ar now :: st.gallery) = _
    rw [if_pos hlen2, dropLast_cons_ne _ _ hg]
  · intro sessions m now
    rfl

/-- Witness for `storage_caps_amended` on a full 20-entry gallery and an
empty session list. -/
theorem storage_caps_amended_witness :
    ((saveToGallery demoGallery20 ("new") ("p") StudioMode.CREATE ("1:1") 99).gallery.length ≤ 20) ∧
    ((saveToGallery demoGallery20 ("new") ("p") StudioMode.CREATE ("1:1") 99).gallery =
      mkGalleryItem ("new") ("p") StudioMode.CREATE ("1:1") 99 :: demoGallery20.gallery.dropLast) ∧
    ((createNewSession [] msg0 7).length = ([] : List ChatSession).length + 1) :=
  ⟨storage_caps_amended.1 demoGallery20 ("new") ("p") StudioMode.CREATE ("1:1") 99 (by decide),
   storage_caps_amended.2.1 demoGallery20 ("new") ("p") StudioMode.CREATE ("1:1") 99
     (by decide) (by decide),
   storage_caps_amended.2.2 [] msg0 7⟩

/-! ## Claim C10 — duplicate-suppressing gallery save -/

/-- A save whose image data already occurs in the gallery changes nothing. -/
theorem saveToGallery_dup (st : GalleryState) (d p : String) (m : StudioMode)
    (ar : String) (now : Nat)
    (h : st.gallery.any (fun g => g.imageData == d) = true) :
    saveToGallery st d p m ar now = st := by
  unfold saveToGallery
  rw [if_pos h]

/-- Claim C10: when an entry with identical image data already exists,
`saveToGallery` is a complete no-op (state and persisted copy unchanged),
and saving the same image data twice equals saving it once, whatever the
other arguments of the second save are. -/
theorem gallery_dup_noop (st : GalleryState) (d p : String) (m : StudioMode)
    (ar : String) (now : Nat) :
    (st.gallery.any (fun g => g.imageData == d) = true →
      saveToGallery st d p m ar now = st) ∧
    (∀ (p2 : String) (m2 : StudioMode) (ar2 : String) (now2 : Nat),
      saveToGallery (saveToGallery st d p m ar now) d p2 m2 ar2 now2 =
        saveToGallery st d p m ar now) := by
  constructor
  · intro h
    exact saveToGallery_dup st d p m ar now h
  · intro p2 m2 ar2 now2
    by_cases h : st.gallery.any (fun g => g.imageData == d) = true
    · rw [saveToGallery_dup st d p m ar now h]
      exact saveToGallery_dup st d p2 m2 ar2 now2 h
    · have hf : st.gallery.any (fun g => g.imageData == d) = false := by simpa using h
      have hsave : (saveToGallery st d p m ar now).gallery.any
          (fun g => g.imageData == d) = true := by
        unfold saveToGallery
        rw [if_neg (by simp [hf])]
        show (if (mkGalleryItem d p m ar now :: st.gallery).length > 20
              then (mkGalleryItem d p m ar now :: st.gallery).dropLast
              else mkGalleryItem d p m ar now :: st.gallery).any
            (fun g => g.imageData == d) = true
        split_ifs with hlen
        · have hg : st.gallery ≠ [] := by
            intro hnil
            rw [hnil] at hlen
            simp at hlen
          rw [dropLast_cons_ne _ _ hg]
          simp [mkGalleryItem]
        · simp [mkGalleryItem]
      exact saveToGallery_dup _ d p2 m2 ar2 now2 hsave

/-- Witness for `gallery_dup_noop` on a gallery already holding the image. -/
theorem gallery_dup_noop_witness :
    (dupGallery.gallery.any (fun g => g.imageData == ("dup")) = true) ∧
    (saveToGallery dupGallery ("dup") ("q") StudioMode.EDIT ("16:9") 9 = dupGallery) ∧
    (saveToGallery (saveToGallery dupGallery ("dup") ("q") StudioMode.EDIT ("16:9") 9)
        ("dup") ("r") StudioMode.CREATE ("1:1") 10 =
      saveToGallery dupGallery ("dup") ("q") StudioMode.EDIT ("16:9") 9) :=
  ⟨by decide,
   (gallery_dup_noop dupGallery ("dup") ("q") StudioMode.EDIT ("16:9") 9).1 (by decide),
   (gallery_dup_noop dupGallery ("dup") ("q") StudioMode.EDIT ("16:9") 9).2
     ("r") StudioMode.CREATE ("1:1") 10⟩
